import Mathlib

/-!
Shallow embedding of the core of the fleet_resource_allocator repository
(Google Apps Script): the allocation matcher (`allocateVehiclesToRoutes`,
AllocationService), the type mapper (`getVanType`, Utils.js), the fleet
partitioner (`groupBy`, Utils.js), the historical append engine
(`updateDailyDetails` / `getExistingUniqueIdentifiers`, EmailService.js),
the identity-key deriver (`updateResultsWithDailyRoutes`,
AllocationService), and the pace aggregator (`getDeliveryPaceData`,
`getDeliveryPaceDataFromForms`, `getDeliveryPaceDataFromSource`,
`generateDeliveryPaceSummary`, DeliveryPaceService.js).

Modelling conventions:
* Spreadsheet cell values that the code treats as strings are `String`;
  date cells are carried in their already-formatted `MM/dd/yyyy` string
  form (the source formats `Date` instances with `formatDate` before any
  comparison, so only the formatted string is observable).
* The current clock (`getTodayString()`) is passed in as a `today`
  parameter: one run of the engine sees a single value of it.
* Sheets are lists of row records holding exactly the columns the
  modelled functions read or write; the region below the last populated
  row is blank, so appending at `getLastPopulatedRowInColumns + 1`
  is list append.
* JS `Set` (insertion ordered, deduplicating) is a `List String` grown
  with `addUnique`; JS objects used as dictionaries are functions with a
  default value.
* Functions that can `throw` return `Except String`; all other modelled
  functions are total, as in the source.
-/

namespace Fleet

/-! ### JS string primitives (structural, kernel-reducible) -/

/-- Boolean prefix test on character lists. -/
def isPrefixCharsB : List Char → List Char → Bool
  | [], _ => true
  | _ :: _, [] => false
  | a :: pat, b :: l => a == b && isPrefixCharsB pat l

/-- Whether `pat` occurs as a contiguous substring of `l`. -/
def hasSubChars (pat : List Char) : List Char → Bool
  | [] => pat.isEmpty
  | b :: l => isPrefixCharsB pat (b :: l) || hasSubChars pat l

/-- JS `s.indexOf(pat) !== -1`. -/
def jsContains (s pat : String) : Bool :=
  hasSubChars pat.data s.data

/-- Remove the first occurrence of `pat` (JS `s.replace(pat, "")`,
which replaces only the first match). -/
def replaceFirstChars (pat : List Char) : List Char → List Char
  | [] => []
  | c :: r =>
    if isPrefixCharsB pat (c :: r) then (c :: r).drop pat.length
    else c :: replaceFirstChars pat r

/-- JS `s.replace(pat, "")`. -/
def jsReplaceFirst (s pat : String) : String :=
  ⟨replaceFirstChars pat.data s.data⟩

/-- JS `!s || s.trim() === ""` for a string cell: every character is
whitespace (or the string is empty). -/
def jsIsBlank (s : String) : Bool :=
  s.data.all (fun c => c == ' ' || c == '\t' || c == '\n' || c == '\r')

/-! ### Data model: routes, vehicles, configuration (Config.js) -/

/-- One Day of Ops route row in object form (`convertToObjectArray`),
restricted to the columns `REQUIRED_COLUMNS.DAY_OF_OPS` that the matcher
reads. -/
structure Route where
  routeCode : String
  serviceType : String
  dsp : String
  wave : String
  stagingLocation : String
deriving Repr, DecidableEq

/-- One Vehicle Status row in object form, restricted to the columns
`REQUIRED_COLUMNS.VEHICLE_STATUS` that the matcher reads:
`Van ID`, `Type`, `Opnal?\nY/N`. -/
structure Vehicle where
  vanId : String
  vanType : String
  opnal : String
deriving Repr, DecidableEq

/-- `CONFIG.VAN_TYPE_MAPPING` from Config.js. -/
def VAN_TYPE_MAPPING : List (String × String) :=
  [("Standard Parcel - Extra Large Van - US", "Extra Large"),
   ("Standard Parcel - Large Van", "Large"),
   ("Standard Parcel Step Van - US", "Step Van")]

/-- `getVanType` from Utils.js: exact lookup in the configured mapping,
else the case-sensitive "Nursery Route Level" substring fallback to
"Large" (guarded by JS truthiness of `serviceType`), else `null`. -/
def getVanType (serviceType : String) : Option String :=
  match VAN_TYPE_MAPPING.lookup serviceType with
  | some t => some t
  | none =>
    if serviceType != "" && jsContains serviceType "Nursery Route Level" then some "Large"
    else none

/-- `groupBy` from Utils.js: builds `out[key]` buckets by pushing each
object, in input order, onto the bucket named by its field value; a key
never pushed to holds no bucket (modelled as `[]`, indistinguishable to
the callers, which test `!fleetGroups[t] || fleetGroups[t].length === 0`). -/
def groupBy {α : Type} (arr : List α) (field : α → String) : String → List α :=
  arr.foldl (fun out obj => fun k => if field obj == k then out k ++ [obj] else out k)
    (fun _ => [])

/-! ### Allocation matcher (allocateVehiclesToRoutes, AllocationService) -/

/-- One allocation result object (lines 552-563 of AllocationService). -/
structure AllocationResult where
  routeCode : String
  serviceType : String
  dsp : String
  wave : String
  stagingLocation : String
  vanId : String
  deviceName : String
  vanType : String
  operational : String
  associateName : String
deriving Repr, DecidableEq

/-- Return value of `allocateVehiclesToRoutes`. -/
structure AllocOutcome where
  allocationResults : List AllocationResult
  assignedVanIds : List String
deriving Repr, DecidableEq

/-- The result object literal built for an assigned route/vehicle pair. -/
def mkAllocationResult (route : Route) (v : Vehicle) : AllocationResult :=
  { routeCode := route.routeCode
  , serviceType := route.serviceType
  , dsp := route.dsp
  , wave := route.wave
  , stagingLocation := route.stagingLocation
  , vanId := v.vanId
  , deviceName := v.vanId
  , vanType := v.vanType
  , operational := v.opnal
  , associateName := "" }

/-- Functional update of the `fleetGroups` dictionary (the effect of
`fleetGroups[t].shift()` on bucket `t`). -/
def setGroup (g : String → List Vehicle) (t : String) (q : List Vehicle) :
    String → List Vehicle :=
  fun c => if c == t then q else g c

/-- The `dayOfOpsObj.forEach` loop of `allocateVehiclesToRoutes`: routes
processed in input order; unresolved type or empty/absent bucket skips
the route; otherwise the bucket head is shifted off and one result is
pushed. -/
def allocLoop : List Route → (String → List Vehicle) →
    List AllocationResult → List String → AllocOutcome
  | [], _, results, assigned => ⟨results, assigned⟩
  | route :: rest, groups, results, assigned =>
    match getVanType route.serviceType with
    | none => allocLoop rest groups results assigned
    | some t =>
      match groups t with
      | [] => allocLoop rest groups results assigned
      | v :: q =>
        allocLoop rest (setGroup groups t q)
          (results ++ [mkAllocationResult route v]) (assigned ++ [v.vanId])

/-- The operational filter (`f["Opnal?\nY/N"] === "Y"`). -/
def operationalFleet (fleetObj : List Vehicle) : List Vehicle :=
  fleetObj.filter (fun f => f.opnal == "Y")

/-- `groupBy(operationalFleet, "Type")`. -/
def fleetGroupsOf (fleetObj : List Vehicle) : String → List Vehicle :=
  groupBy (operationalFleet fleetObj) Vehicle.vanType

/-- `allocateVehiclesToRoutes` from AllocationService. -/
def allocateVehiclesToRoutes (dayOfOpsObj : List Route) (fleetObj : List Vehicle) :
    AllocOutcome :=
  allocLoop dayOfOpsObj (fleetGroupsOf fleetObj) [] []

/-! ### Unassigned-vehicle extraction (extractUnassignedRows, AllocationService) -/

/-- The `Opnal?\nY/N` header literal. -/
def OPNAL_HEADER : String := "Opnal?\nY/N"

/-- JS `Array.prototype.indexOf` on a header row. -/
def jsIndexOf (l : List String) (s : String) : Int :=
  match l.findIdx? (fun x => x == s) with
  | some i => (i : Int)
  | none => -1

/-- JS subscript `row[i]`: `undefined` (here `none`) off the end. -/
def jsGetCell (row : List String) (i : Int) : Option String :=
  if i < 0 then none else row.get? i.toNat

/-- The loop-body test of `extractUnassignedRows`: the row is long
enough (rows shorter than `colCount = 15` are skipped), its operational
flag cell is exactly `"Y"`, and its van id is not in the assigned set. -/
def unassignedRowTest (assignedVanIds : List String) (vanIdCol opCol : Int)
    (row : List String) : Bool :=
  decide (15 ≤ row.length) &&
  (jsGetCell row opCol == some "Y") &&
  !(match jsGetCell row vanIdCol with
    | some v => assignedVanIds.contains v
    | none => false)

/-- `extractUnassignedRows` from AllocationService: keeps, below the
header, the rows passing `unassignedRowTest`, each sliced to the first
15 columns.  Missing header columns throw. -/
def extractUnassignedRows (vehicleStatusData : List (List String))
    (assignedVanIds : List String) : Except String (List (List String)) :=
  match vehicleStatusData with
  | [] => .error "Vehicle Status data has no header row."
  | headerRow :: rest =>
    let vanIdCol := jsIndexOf headerRow "Van ID"
    let opCol := jsIndexOf headerRow OPNAL_HEADER
    if vanIdCol == -1 || opCol == -1 then
      .error "Could not find Van ID or Opnal?/Y/N in Vehicle Status header."
    else
      .ok (headerRow.take 15 ::
        (rest.filter (unassignedRowTest assignedVanIds vanIdCol opCol)).map
          (fun row => row.take 15))

/-! ### Identity keys and the historical append engine (EmailService.js) -/

/-- The §4.4 identity key: the four fields joined by literal pipes, in
the fixed order date, route code, associate name, van id (the
`uniqueIdentifier` expressions at AllocationService lines 614-617 and
EmailService line 764). -/
def deriveKey (date routeCode associateName vanId : String) : String :=
  date ++ "|" ++ routeCode ++ "|" ++ associateName ++ "|" ++ vanId

/-- One results-sheet row, restricted to the columns the append engine
and the key deriver touch: `r[0]` Route Code, `r[5]` Van ID, `r[9]`
Associate Name, `r[10]` Unique Identifier. -/
structure ResultsRow where
  routeCode : String
  vanId : String
  associateName : String
  uniqueId : String
deriving Repr, DecidableEq

/-- One Daily Routes row in object form (`Route code`, `Driver name`). -/
structure DailyRouteRow where
  routeCode : String
  driverName : String
deriving Repr, DecidableEq

/-- The `routeToDriver` dictionary built in `updateResultsWithDailyRoutes`:
later rows overwrite earlier ones; a falsy driver name is stored as
`"N/A"`. -/
def routeToDriverMap (dailyRoutesObj : List DailyRouteRow) : String → Option String :=
  dailyRoutesObj.foldl
    (fun m r => fun k =>
      if k == r.routeCode then some (if r.driverName == "" then "N/A" else r.driverName)
      else m k)
    (fun _ => none)

/-- The row-updating loop of `updateResultsWithDailyRoutes`
(AllocationService lines 608-620): writes the resolved associate name
into column 10 and the rebuilt unique identifier into column 11 of every
results row. -/
def updateResultsWithDailyRoutes (today : String)
    (dailyRoutesObj : List DailyRouteRow) (rows : List ResultsRow) : List ResultsRow :=
  let routeToDriver := routeToDriverMap dailyRoutesObj
  rows.map (fun r =>
    let associateName := (routeToDriver r.routeCode).getD "N/A"
    { r with
      associateName := associateName
      uniqueId := deriveKey today r.routeCode associateName r.vanId })

/-- One Daily Details sheet row: column A date (formatted string),
B route code, C associate name, D asset id, E van id, L-P the five pace
cells (numeric or blank), V (22nd) the unique identifier (blank = `""`). -/
structure DailyRow where
  date : String
  routeCode : String
  associateName : String
  assetId : String
  vanId : String
  pace : Fin 5 → Option Int
  uniqueId : String
deriving DecidableEq

/-- JS `Set.add`: insertion-ordered, deduplicating. -/
def addUnique (l : List String) (s : String) : List String :=
  if l.contains s then l else l ++ [s]

/-- The `newRow = [today, r[0], r[9], "", r[5]]` literal of
`updateDailyDetails`; pace cells and the key column are untouched by the
A-E write, hence blank on a fresh append. -/
def mkDailyRow (today : String) (r : ResultsRow) : DailyRow :=
  { date := today
  , routeCode := r.routeCode
  , associateName := r.associateName
  , assetId := ""
  , vanId := r.vanId
  , pace := fun _ => none
  , uniqueId := "" }

/-- The `newUniqueIdentifiers` Set of `updateDailyDetails`: the truthy
(non-empty) `r[10]` values, deduplicated, in row order. -/
def collectUniqueIds (results : List ResultsRow) : List String :=
  results.foldl (fun s r => if r.uniqueId == "" then s else addUnique s r.uniqueId) []

/-- `getExistingUniqueIdentifiers` from EmailService.js: the column-22
values of the rows whose (formatted) date cell equals `dateStr`, as a
Set. -/
def getExistingUniqueIdentifiers (log : List DailyRow) (dateStr : String) : List String :=
  log.foldl (fun s row => if row.date == dateStr then addUnique s row.uniqueId else s) []

/-- Observable outcome of one `updateDailyDetails` call: the Daily
Details data region after the call, the duplicate keys logged by the
rejection loop, and whether the mismatched-count warning fired. -/
structure AppendOutcome where
  log : List DailyRow
  duplicateKeys : List String
  mismatchWarning : Bool
deriving DecidableEq

/-- `updateDailyDetails` from EmailService.js, acting on the Daily
Details data region (`log`, rows 2..lastPopulatedRow) and the results
data rows.  No results rows: return.  Any candidate key already present
for `today`: log every such key and return without writing.  Otherwise
append the A-E rows; the key column is written (set elements in
insertion order, which under the count equality is exactly row order)
only when the Set size equals the row count, else the batch's key cells
stay blank and only the warning is logged. -/
def updateDailyDetails (log : List DailyRow) (today : String)
    (results : List ResultsRow) : AppendOutcome :=
  if results.isEmpty then ⟨log, [], false⟩
  else
    let newRows := results.map (mkDailyRow today)
    let newUniqueIdentifiers := collectUniqueIds results
    let existing := getExistingUniqueIdentifiers log today
    let dups := newUniqueIdentifiers.filter (fun k => existing.contains k)
    if !dups.isEmpty then ⟨log, dups, false⟩
    else if newUniqueIdentifiers.length == newRows.length then
      ⟨log ++ (newRows.zip newUniqueIdentifiers).map (fun p => { p.1 with uniqueId := p.2 }),
       [], false⟩
    else ⟨log ++ newRows, [], true⟩

/-! ### Pace aggregator (DeliveryPaceService.js) -/

/-- The five fixed checkpoint labels (`DELIVERY_TIME_SLOTS` labels and
the literal key sets in DeliveryPaceService). -/
def TIME_SLOTS : List String := ["1:40 PM", "3:40 PM", "5:40 PM", "7:40 PM", "9:40 PM"]

/-- One row of the `Delivery Pace Data` form-response sheet, restricted
to the columns the reader uses: B Date (formatted string), C Van ID,
F Reporting Time, G Total Deliveries (a numeric cell). -/
structure PaceFormRow where
  date : String
  vanId : String
  reportingTime : String
  totalDeliveries : Int
deriving Repr, DecidableEq

/-- The all-null `paceData` object initialised at DeliveryPaceService
lines 115-121 (keys outside the five slots are never read). -/
def emptyPace : String → Option Int := fun _ => none

/-- One iteration of the row loop of `getDeliveryPaceDataFromForms`:
rows for the requested van and date, with a non-blank reporting time
whose ` (End of Day)`-stripped form is one of the five slots, overwrite
that slot (latest submission wins). -/
def formsStep (vanId date : String) (pd : String → Option Int) (row : PaceFormRow) :
    String → Option Int :=
  if row.vanId == vanId && row.date == date then
    if jsIsBlank row.reportingTime then pd
    else
      let timeKey := jsReplaceFirst row.reportingTime " (End of Day)"
      if TIME_SLOTS.contains timeKey then
        fun k => if k == timeKey then some row.totalDeliveries else pd k
      else pd
  else pd

/-- The `paceData` object after the row loop of
`getDeliveryPaceDataFromForms`. -/
def formsPaceTable (rows : List PaceFormRow) (vanId date : String) : String → Option Int :=
  rows.foldl (formsStep vanId date) emptyPace

/-- `getDeliveryPaceDataFromForms`: the accumulated table if its
`hasData` scan finds at least one non-null slot, else `null`. -/
def getDeliveryPaceDataFromForms (rows : List PaceFormRow) (vanId date : String) :
    Option (String → Option Int) :=
  let pd := formsPaceTable rows vanId date
  if TIME_SLOTS.any (fun k => (pd k).isSome) then some pd else none

/-- `getDeliveryPaceDataFromSource`: the simulated fallback source.  The
`Math.floor(Math.random() * k)` draws are modelled by the parameters
`rand i % k`; every slot always holds a value. -/
def getDeliveryPaceDataFromSource (rand : Fin 5 → Nat) : String → Option Int :=
  let baseStops : Int := ((rand 0 % 20 : Nat) : Int) + 10
  fun k =>
    if k == "1:40 PM" then some baseStops
    else if k == "3:40 PM" then some (baseStops + ((rand 1 % 30 : Nat) : Int) + 20)
    else if k == "5:40 PM" then some (baseStops + ((rand 2 % 50 : Nat) : Int) + 40)
    else if k == "7:40 PM" then some (baseStops + ((rand 3 % 60 : Nat) : Int) + 60)
    else if k == "9:40 PM" then some (baseStops + ((rand 4 % 70 : Nat) : Int) + 80)
    else none

/-- `getDeliveryPaceData`: the form source wins whenever it returns a
record (a returned record always carries the five keys, so
`Object.keys(formData).length > 0` is equivalent to non-null); else the
fallback source is used. -/
def getDeliveryPaceData (rows : List PaceFormRow) (vanId date : String)
    (rand : Fin 5 → Nat) : String → Option Int :=
  match getDeliveryPaceDataFromForms rows vanId date with
  | some pd => pd
  | none => getDeliveryPaceDataFromSource rand

/-- JS truthy-and-numeric test `value && !isNaN(value)` on a
numeric-or-blank pace cell: a blank cell and the number `0` are both
rejected. -/
def jsTruthyNum : Option Int → Bool
  | none => false
  | some n => n != 0

/-- One `vanDetails` entry of `generateDeliveryPaceSummary` (the `pace`
map holds only the slots that passed the truthy-numeric test). -/
structure VanDetail where
  vanId : String
  driver : String
  route : String
  pace : Fin 5 → Option Int
deriving DecidableEq

/-- The summary object returned by `generateDeliveryPaceSummary`. -/
structure PaceSummary where
  date : String
  totalVans : Nat
  vansWithData : Nat
  averagePace : Fin 5 → Int
  vanDetails : List VanDetail
deriving DecidableEq

/-- The mutable accumulators of `generateDeliveryPaceSummary` during the
row loop (`averagePace` holds running sums until the final division). -/
structure SummAcc where
  totalVans : Nat
  vansWithData : Nat
  paceTotals : Fin 5 → Int
  counts : Fin 5 → Nat
  vanDetails : List VanDetail

/-- One iteration of the row loop of `generateDeliveryPaceSummary`: rows
of the requested date bump `totalVans`; each slot passing the
truthy-numeric test is added to that slot's running sum and count; a row
with at least one passing slot bumps `vansWithData` and is pushed onto
`vanDetails`. -/
def summStep (date : String) (acc : SummAcc) (row : DailyRow) : SummAcc :=
  if row.date == date then
    let contrib : Fin 5 → Bool := fun j => jsTruthyNum (row.pace j)
    let hasData := (List.finRange 5).any contrib
    { totalVans := acc.totalVans + 1
    , vansWithData := acc.vansWithData + (if hasData then 1 else 0)
    , paceTotals := fun j =>
        if contrib j then acc.paceTotals j + (row.pace j).getD 0 else acc.paceTotals j
    , counts := fun j => if contrib j then acc.counts j + 1 else acc.counts j
    , vanDetails := acc.vanDetails ++
        (if hasData then
          [⟨row.vanId, row.associateName, row.routeCode,
            fun j => if contrib j then row.pace j else none⟩]
         else []) }
  else acc

/-- JS `Math.round(s / c)` for an integer sum `s` and positive count `c`:
floor of `s / c + 1 / 2`. -/
def mathRound (s : Int) (c : Nat) : Int :=
  Int.fdiv (2 * s + c) (2 * c)

/-- `generateDeliveryPaceSummary` from DeliveryPaceService.js, acting on
the Daily Details data region: one pass over the rows, then per-slot
division (`Math.round(sum / count)`) wherever the count is positive (a
slot with count zero keeps its running sum, which is then `0`). -/
def generateDeliveryPaceSummary (log : List DailyRow) (date : String) : PaceSummary :=
  let a := log.foldl (summStep date) ⟨0, 0, fun _ => 0, fun _ => 0, []⟩
  { date := date
  , totalVans := a.totalVans
  , vansWithData := a.vansWithData
  , averagePace := fun j =>
      if a.counts j > 0 then mathRound (a.paceTotals j) (a.counts j) else a.paceTotals j
  , vanDetails := a.vanDetails }

/-! ### Spec-side definitions (written from the words of the spec, for
the refinement claims) -/

/-- Modelled from the spec (§4.1, C5): `resolveCategory` — exact lookup
in the configured mapping table first; if no exact match and the
service-type string contains the literal substring "Nursery Route Level"
(case-sensitive), resolve to "Large"; otherwise unresolved. -/
def specResolveCategory (serviceType : String) : Option String :=
  match VAN_TYPE_MAPPING.lookup serviceType with
  | some c => some c
  | none =>
    if jsContains serviceType "Nursery Route Level" then some "Large" else none

/-- Modelled from the spec (§4.3, C5): processing routes exactly in
input order; a route with unresolved category, or whose category queue
is empty or absent, is skipped without error and consumes no vehicle;
otherwise the head vehicle of that category's queue is removed (FIFO)
and one allocation is created from that route and vehicle. -/
def specMatch : List Route → (String → List Vehicle) → AllocOutcome
  | [], _ => ⟨[], []⟩
  | route :: rest, groups =>
    match specResolveCategory route.serviceType with
    | none => specMatch rest groups
    | some cat =>
      match groups cat with
      | [] => specMatch rest groups
      | v :: q =>
        let out := specMatch rest (setGroup groups cat q)
        ⟨mkAllocationResult route v :: out.allocationResults,
         v.vanId :: out.assignedVanIds⟩

/-- Shorthand for the duplicate list computed inside `updateDailyDetails`. -/
def dupsOf (log : List DailyRow) (today : String) (results : List ResultsRow) : List String :=
  (collectUniqueIds results).filter
    (fun k => (getExistingUniqueIdentifiers log today).contains k)

/-- The spec's summary example: one checkpoint holding the values 10,
blank, 20 across three rows of one date. -/
def paceExampleLog : List DailyRow :=
  [⟨"02/11/2025", "R1", "A", "", "V1", fun j => if j = 0 then some 10 else none, ""⟩,
   ⟨"02/11/2025", "R2", "B", "", "V2", fun _ => none, ""⟩,
   ⟨"02/11/2025", "R3", "C", "", "V3", fun j => if j = 0 then some 20 else none, ""⟩]

/-! ### Sanity examples -/

example :
    allocateVehiclesToRoutes
      [⟨"CX9", "Standard Parcel - Large Van", "BWAY", "1", "A"⟩]
      [⟨"BW1", "Large", "Y"⟩]
      = ⟨[⟨"CX9", "Standard Parcel - Large Van", "BWAY", "1", "A",
           "BW1", "BW1", "Large", "Y", ""⟩], ["BW1"]⟩ := by decide

example :
    allocateVehiclesToRoutes
      [⟨"CX9", "Unknown Service", "BWAY", "1", "A"⟩]
      [⟨"BW1", "Large", "Y"⟩]
      = ⟨[], []⟩ := by decide

example : getVanType "Anything Nursery Route Level Something" = some "Large" := by decide

example : getVanType "Nursery Route" = none := by decide

example :
    (updateDailyDetails [] "02/11/2025"
      [⟨"CX9", "BW2", "Marquis Thomas", "02/11/2025|CX9|Marquis Thomas|BW2"⟩]).log.length = 1 := by
  decide

example :
    (updateDailyDetails
      [⟨"02/11/2025", "CX9", "Marquis Thomas", "", "BW2", fun _ => none,
        "02/11/2025|CX9|Marquis Thomas|BW2"⟩]
      "02/11/2025"
      [⟨"CX9", "BW2", "Marquis Thomas", "02/11/2025|CX9|Marquis Thomas|BW2"⟩]).duplicateKeys
      = ["02/11/2025|CX9|Marquis Thomas|BW2"] := by
  decide

example : mathRound 30 2 = 15 := by decide

example :
    (generateDeliveryPaceSummary
      [⟨"02/11/2025", "R1", "A", "", "V1", fun j => if j = 0 then some 10 else none, ""⟩,
       ⟨"02/11/2025", "R2", "B", "", "V2", fun _ => none, ""⟩,
       ⟨"02/11/2025", "R3", "C", "", "V3", fun j => if j = 0 then some 20 else none, ""⟩]
      "02/11/2025").averagePace 0 = 15 := by decide

/-! ### Helper lemmas -/

lemma jsContains_empty_left : jsContains "" "Nursery Route Level" = false := by decide

lemma getVanType_eq_spec (s : String) : getVanType s = specResolveCategory s := by
  unfold getVanType specResolveCategory
  cases h : VAN_TYPE_MAPPING.lookup s with
  | some t => rfl
  | none =>
    by_cases hs : s = ""
    · subst hs
      simp [jsContains_empty_left]
    · have h1 : (s != "") = true := bne_iff_ne.mpr hs
      rw [h1, Bool.true_and]

lemma allocLoop_eq_specMatch :
    ∀ (routes : List Route) (groups : String → List Vehicle)
      (results : List AllocationResult) (assigned : List String),
    allocLoop routes groups results assigned =
      ⟨results ++ (specMatch routes groups).allocationResults,
       assigned ++ (specMatch routes groups).assignedVanIds⟩ := by
  intro routes
  induction routes with
  | nil => intro groups results assigned; simp [allocLoop, specMatch]
  | cons route rest ih =>
    intro groups results assigned
    rw [allocLoop, specMatch, ← getVanType_eq_spec]
    cases hres : getVanType route.serviceType with
    | none => simpa using ih groups results assigned
    | some t =>
      dsimp only
      cases hq : groups t with
      | nil => simpa using ih groups results assigned
      | cons v q =>
        dsimp only
        rw [ih]
        simp

lemma foldl_groupBy {α : Type} (field : α → String) :
    ∀ (arr : List α) (g : String → List α) (k : String),
    (arr.foldl (fun out obj => fun c => if field obj == c then out c ++ [obj] else out c) g) k
      = g k ++ arr.filter (fun o => field o == k) := by
  intro arr
  induction arr with
  | nil => intro g k; simp
  | cons o arr ih =>
    intro g k
    rw [List.foldl_cons, ih, List.filter_cons]
    by_cases h : (field o == k) = true
    · simp [h]
    · simp [h]

lemma groupBy_eq_filter {α : Type} (arr : List α) (field : α → String) (k : String) :
    groupBy arr field k = arr.filter (fun o => field o == k) := by
  unfold groupBy
  rw [foldl_groupBy]
  simp

/-! ### Claim C5 -/

/-- C5: the matcher processes routes exactly in input order; a route's
category is resolved by exact lookup in `VAN_TYPE_MAPPING`, falling back
to "Large" when the service type contains the case-sensitive substring
"Nursery Route Level"; a route with unresolved category or an
empty/absent category queue is skipped without error and consumes no
vehicle; otherwise the head vehicle of the category's queue is removed
(FIFO) and one allocation is created.  Stated as: the type mapper equals
the spec-side resolver at every input, and the source matcher loop
equals the spec-side matcher at every input. -/
theorem c5_matcher_algorithm :
    (∀ s : String, getVanType s = specResolveCategory s) ∧
    ∀ (routes : List Route) (fleet : List Vehicle),
      allocateVehiclesToRoutes routes fleet = specMatch routes (fleetGroupsOf fleet) := by
  refine ⟨getVanType_eq_spec, fun routes fleet => ?_⟩
  rw [allocateVehiclesToRoutes, allocLoop_eq_specMatch]
  simp

/-- C5 witness: the theorem applied at the spec's scenario 1 inputs. -/
theorem c5_matcher_algorithm_witness :
    getVanType "Standard Parcel - Large Van"
      = specResolveCategory "Standard Parcel - Large Van" ∧
    allocateVehiclesToRoutes
        [⟨"CX9", "Standard Parcel - Large Van", "BWAY", "1", "A"⟩]
        [⟨"BW1", "Large", "Y"⟩]
      = specMatch [⟨"CX9", "Standard Parcel - Large Van", "BWAY", "1", "A"⟩]
          (fleetGroupsOf [⟨"BW1", "Large", "Y"⟩]) :=
  ⟨c5_matcher_algorithm.1 "Standard Parcel - Large Van",
   c5_matcher_algorithm.2 [⟨"CX9", "Standard Parcel - Large Van", "BWAY", "1", "A"⟩]
     [⟨"BW1", "Large", "Y"⟩]⟩

/-! ### Claim C7 -/

/-- C7: a vehicle is offered to the matcher iff its operational flag is
exactly `"Y"`, and the surviving vehicles are grouped by category with
the original relative roster order preserved within each category: the
bucket for category `c` is exactly the order-preserving filter of the
operational filter of the roster (the embedding is a pure function of
the roster, which is never mutated). -/
theorem c7_fleet_partitioning :
    ∀ (fleet : List Vehicle) (c : String),
    fleetGroupsOf fleet c
      = (fleet.filter (fun f => f.opnal == "Y")).filter (fun v => v.vanType == c) ∧
    ∀ v : Vehicle, (∃ k, v ∈ fleetGroupsOf fleet k) ↔ v ∈ fleet ∧ v.opnal = "Y" := by
  intro fleet c
  constructor
  · rw [fleetGroupsOf, operationalFleet, groupBy_eq_filter]
  · intro v
    constructor
    · rintro ⟨k, hv⟩
      rw [fleetGroupsOf, operationalFleet, groupBy_eq_filter] at hv
      have hv2 := List.mem_filter.mp hv
      have hv3 := List.mem_filter.mp hv2.1
      exact ⟨hv3.1, by simpa using hv3.2⟩
    · rintro ⟨hmem, hop⟩
      refine ⟨v.vanType, ?_⟩
      rw [fleetGroupsOf, operationalFleet, groupBy_eq_filter]
      exact List.mem_filter.mpr ⟨List.mem_filter.mpr ⟨hmem, by simp [hop]⟩, by simp⟩

/-- C7 witness: the theorem applied at a two-vehicle roster with one
non-operational vehicle. -/
theorem c7_fleet_partitioning_witness :
    fleetGroupsOf [⟨"BW1", "Large", "Y"⟩, ⟨"BW2", "Large", "N"⟩] "Large"
      = (([⟨"BW1", "Large", "Y"⟩, ⟨"BW2", "Large", "N"⟩] : List Vehicle).filter
          (fun f => f.opnal == "Y")).filter (fun v => v.vanType == "Large") ∧
    ∀ v : Vehicle,
      (∃ k, v ∈ fleetGroupsOf [⟨"BW1", "Large", "Y"⟩, ⟨"BW2", "Large", "N"⟩] k) ↔
      v ∈ ([⟨"BW1", "Large", "Y"⟩, ⟨"BW2", "Large", "N"⟩] : List Vehicle) ∧ v.opnal = "Y" :=
  c7_fleet_partitioning [⟨"BW1", "Large", "Y"⟩, ⟨"BW2", "Large", "N"⟩] "Large"

/-! ### Claim C8 -/

/-- C8: pace-source priority is winner-take-all.  If the form source
returns a record it is used in full (and it always carries at least one
non-null checkpoint); a form table whose five checkpoints are all null
is treated as yielding nothing and the fallback source is used in full;
whenever the form source yields nothing the fallback is used in full;
and if additionally the fallback held no value at any checkpoint the
result would hold no value at any checkpoint. -/
theorem c8_pace_priority :
    ∀ (rows : List PaceFormRow) (vanId date : String) (rand : Fin 5 → Nat),
    (∀ pd, getDeliveryPaceDataFromForms rows vanId date = some pd →
        getDeliveryPaceData rows vanId date rand = pd ∧
        TIME_SLOTS.any (fun k => (pd k).isSome) = true) ∧
    ((∀ k ∈ TIME_SLOTS, formsPaceTable rows vanId date k = none) →
        getDeliveryPaceDataFromForms rows vanId date = none ∧
        getDeliveryPaceData rows vanId date rand = getDeliveryPaceDataFromSource rand) ∧
    (getDeliveryPaceDataFromForms rows vanId date = none →
        getDeliveryPaceData rows vanId date rand = getDeliveryPaceDataFromSource rand) ∧
    ((getDeliveryPaceDataFromForms rows vanId date = none ∧
      (∀ k, getDeliveryPaceDataFromSource rand k = none)) →
        ∀ k, getDeliveryPaceData rows vanId date rand k = none) := by
  intro rows vanId date rand
  have hnone : getDeliveryPaceDataFromForms rows vanId date = none →
      getDeliveryPaceData rows vanId date rand = getDeliveryPaceDataFromSource rand := by
    intro h
    rw [getDeliveryPaceData, h]
  refine ⟨?_, ?_, hnone, ?_⟩
  · intro pd h
    constructor
    · rw [getDeliveryPaceData, h]
    · rw [getDeliveryPaceDataFromForms] at h
      by_cases hc : (TIME_SLOTS.any fun k => (formsPaceTable rows vanId date k).isSome) = true
      · rw [if_pos hc] at h
        cases h
        exact hc
      · rw [if_neg hc] at h
        exact absurd h (by simp)
  · intro hall
    have hany : (TIME_SLOTS.any fun k => (formsPaceTable rows vanId date k).isSome) = false := by
      rw [Bool.eq_false_iff]
      intro hc
      obtain ⟨k, hk, hsome⟩ := List.any_eq_true.mp hc
      rw [hall k hk] at hsome
      simp at hsome
    have hform : getDeliveryPaceDataFromForms rows vanId date = none := by
      rw [getDeliveryPaceDataFromForms, hany]
      simp
    exact ⟨hform, hnone hform⟩
  · rintro ⟨h1, h2⟩ k
    rw [hnone h1]
    exact h2 k

/-- C8 witness: the theorem applied at a concrete input (one form row
for the requested van so the form source wins with checkpoint 5). -/
theorem c8_pace_priority_witness :
    (∀ pd, getDeliveryPaceDataFromForms [⟨"02/11/2025", "BW1", "1:40 PM", 5⟩] "BW1" "02/11/2025"
        = some pd →
        getDeliveryPaceData [⟨"02/11/2025", "BW1", "1:40 PM", 5⟩] "BW1" "02/11/2025" (fun _ => 0)
          = pd ∧
        TIME_SLOTS.any (fun k => (pd k).isSome) = true) ∧
    ((∀ k ∈ TIME_SLOTS,
        formsPaceTable [⟨"02/11/2025", "BW1", "1:40 PM", 5⟩] "BW1" "02/11/2025" k = none) →
        getDeliveryPaceDataFromForms [⟨"02/11/2025", "BW1", "1:40 PM", 5⟩] "BW1" "02/11/2025"
          = none ∧
        getDeliveryPaceData [⟨"02/11/2025", "BW1", "1:40 PM", 5⟩] "BW1" "02/11/2025" (fun _ => 0)
          = getDeliveryPaceDataFromSource (fun _ => 0)) ∧
    (getDeliveryPaceDataFromForms [⟨"02/11/2025", "BW1", "1:40 PM", 5⟩] "BW1" "02/11/2025"
        = none →
        getDeliveryPaceData [⟨"02/11/2025", "BW1", "1:40 PM", 5⟩] "BW1" "02/11/2025" (fun _ => 0)
          = getDeliveryPaceDataFromSource (fun _ => 0)) ∧
    ((getDeliveryPaceDataFromForms [⟨"02/11/2025", "BW1", "1:40 PM", 5⟩] "BW1" "02/11/2025"
        = none ∧
      (∀ k, getDeliveryPaceDataFromSource (fun _ => 0) k = none)) →
        ∀ k, getDeliveryPaceData [⟨"02/11/2025", "BW1", "1:40 PM", 5⟩] "BW1" "02/11/2025"
          (fun _ => 0) k = none) :=
  c8_pace_priority [⟨"02/11/2025", "BW1", "1:40 PM", 5⟩] "BW1" "02/11/2025" (fun _ => 0)

/-! ### Helper lemmas for the append engine -/

lemma mem_addUnique (l : List String) (s a : String) :
    a ∈ addUnique l s ↔ a ∈ l ∨ a = s := by
  unfold addUnique
  by_cases h : l.contains s
  · rw [if_pos h]
    have hs : s ∈ l := by simpa using h
    constructor
    · exact Or.inl
    · rintro (ha | rfl)
      · exact ha
      · exact hs
  · rw [if_neg h]
    simp

lemma mem_getExisting_aux (d : String) :
    ∀ (log : List DailyRow) (s : List String) (k : String),
    k ∈ log.foldl (fun s row => if row.date == d then addUnique s row.uniqueId else s) s ↔
      k ∈ s ∨ ∃ row ∈ log, row.date = d ∧ row.uniqueId = k := by
  intro log
  induction log with
  | nil => intro s k; simp
  | cons row rest ih =>
    intro s k
    rw [List.foldl_cons, ih]
    by_cases h : row.date = d
    · rw [if_pos (by simpa using h), mem_addUnique]
      constructor
      · rintro ((hk | rfl) | hk)
        · exact Or.inl hk
        · exact Or.inr ⟨row, List.mem_cons_self .., h, rfl⟩
        · obtain ⟨r, hr, hd, hu⟩ := hk
          exact Or.inr ⟨r, List.mem_cons_of_mem _ hr, hd, hu⟩
      · rintro (hk | ⟨r, hr, hd, hu⟩)
        · exact Or.inl (Or.inl hk)
        · rcases List.mem_cons.mp hr with rfl | hr
          · exact Or.inl (Or.inr hu.symm)
          · exact Or.inr ⟨r, hr, hd, hu⟩
    · rw [if_neg (by simpa using h)]
      constructor
      · rintro (hk | ⟨r, hr, hd, hu⟩)
        · exact Or.inl hk
        · exact Or.inr ⟨r, List.mem_cons_of_mem _ hr, hd, hu⟩
      · rintro (hk | ⟨r, hr, hd, hu⟩)
        · exact Or.inl hk
        · rcases List.mem_cons.mp hr with rfl | hr
          · exact absurd hd h
          · exact Or.inr ⟨r, hr, hd, hu⟩

lemma mem_getExisting (log : List DailyRow) (d k : String) :
    k ∈ getExistingUniqueIdentifiers log d ↔
      ∃ row ∈ log, row.date = d ∧ row.uniqueId = k := by
  rw [getExistingUniqueIdentifiers, mem_getExisting_aux]
  simp

lemma mem_collect_aux :
    ∀ (results : List ResultsRow) (s : List String) (k : String),
    k ∈ results.foldl (fun s r => if r.uniqueId == "" then s else addUnique s r.uniqueId) s ↔
      k ∈ s ∨ (k ≠ "" ∧ ∃ r ∈ results, r.uniqueId = k) := by
  intro results
  induction results with
  | nil => intro s k; simp
  | cons r rest ih =>
    intro s k
    rw [List.foldl_cons, ih]
    by_cases h : r.uniqueId = ""
    · rw [if_pos (by simpa using h)]
      constructor
      · rintro (hk | ⟨hne, r', hr', hu⟩)
        · exact Or.inl hk
        · exact Or.inr ⟨hne, r', List.mem_cons_of_mem _ hr', hu⟩
      · rintro (hk | ⟨hne, r', hr', hu⟩)
        · exact Or.inl hk
        · rcases List.mem_cons.mp hr' with rfl | hr'
          · exact absurd (hu ▸ h) hne
          · exact Or.inr ⟨hne, r', hr', hu⟩
    · rw [if_neg (by simpa using h), mem_addUnique]
      constructor
      · rintro ((hk | rfl) | ⟨hne, r', hr', hu⟩)
        · exact Or.inl hk
        · exact Or.inr ⟨h, r, List.mem_cons_self .., rfl⟩
        · exact Or.inr ⟨hne, r', List.mem_cons_of_mem _ hr', hu⟩
      · rintro (hk | ⟨hne, r', hr', hu⟩)
        · exact Or.inl (Or.inl hk)
        · rcases List.mem_cons.mp hr' with rfl | hr'
          · exact Or.inl (Or.inr hu.symm)
          · exact Or.inr ⟨hne, r', hr', hu⟩

lemma mem_collectUniqueIds (results : List ResultsRow) (k : String) :
    k ∈ collectUniqueIds results ↔ k ≠ "" ∧ ∃ r ∈ results, r.uniqueId = k := by
  rw [collectUniqueIds, mem_collect_aux]
  simp

lemma collect_eq_map_aux :
    ∀ (results : List ResultsRow) (s : List String),
    (∀ r ∈ results, r.uniqueId ≠ "") →
    (results.map ResultsRow.uniqueId).Nodup →
    (∀ r ∈ results, r.uniqueId ∉ s) →
    results.foldl (fun s r => if r.uniqueId == "" then s else addUnique s r.uniqueId) s
      = s ++ results.map ResultsRow.uniqueId := by
  intro results
  induction results with
  | nil => intro s _ _ _; simp
  | cons r rest ih =>
    intro s hne hnd hdisj
    rw [List.foldl_cons,
      if_neg (by simpa using hne r (List.mem_cons_self ..))]
    rw [addUnique,
      if_neg (by simpa using hdisj r (List.mem_cons_self ..))]
    have hd2 : ∀ r' ∈ rest, r'.uniqueId ∉ s ++ [r.uniqueId] := by
      intro r' hr'
      rw [List.mem_append]
      rintro (hs | hs)
      · exact hdisj r' (List.mem_cons_of_mem _ hr') hs
      · exact (List.nodup_cons.mp (by simpa using hnd)).1
          (List.mem_map.mpr ⟨r', hr', by simpa using hs⟩)
    rw [ih (s ++ [r.uniqueId]) (fun r' hr' => hne r' (List.mem_cons_of_mem _ hr'))
        (List.nodup_cons.mp (by simpa using hnd)).2 hd2]
    simp

lemma collect_eq_map (results : List ResultsRow)
    (hne : ∀ r ∈ results, r.uniqueId ≠ "")
    (hnd : (results.map ResultsRow.uniqueId).Nodup) :
    collectUniqueIds results = results.map ResultsRow.uniqueId := by
  rw [collectUniqueIds, collect_eq_map_aux results [] hne hnd (by simp)]
  simp

lemma updateDailyDetails_reject (log : List DailyRow) (today : String)
    (results : List ResultsRow) (hne : results ≠ [])
    (hd : dupsOf log today results ≠ []) :
    updateDailyDetails log today results = ⟨log, dupsOf log today results, false⟩ := by
  rw [updateDailyDetails, if_neg (by simpa [List.isEmpty_iff] using hne)]
  obtain ⟨k, hk⟩ := List.exists_mem_of_ne_nil _ hd
  have hkf := List.mem_filter.mp hk
  have hex : ∃ x ∈ collectUniqueIds results, x ∈ getExistingUniqueIdentifiers log today :=
    ⟨k, hkf.1, by simpa using hkf.2⟩
  simp [dupsOf, hex]

lemma updateDailyDetails_write (log : List DailyRow) (today : String)
    (results : List ResultsRow) (hne : results ≠ [])
    (hd : dupsOf log today results = [])
    (hlen : (collectUniqueIds results).length = results.length) :
    updateDailyDetails log today results =
      ⟨log ++ ((results.map (mkDailyRow today)).zip (collectUniqueIds results)).map
          (fun p => { p.1 with uniqueId := p.2 }), [], false⟩ := by
  rw [updateDailyDetails, if_neg (by simpa [List.isEmpty_iff] using hne)]
  have hex : ¬ ∃ x ∈ collectUniqueIds results, x ∈ getExistingUniqueIdentifiers log today := by
    rintro ⟨k, hk, hke⟩
    have hmem : k ∈ dupsOf log today results :=
      List.mem_filter.mpr ⟨hk, by simpa using hke⟩
    rw [hd] at hmem
    simp at hmem
  simp [hex, hlen]

lemma updateDailyDetails_nokeys (log : List DailyRow) (today : String)
    (results : List ResultsRow) (hne : results ≠ [])
    (hd : dupsOf log today results = [])
    (hlen : (collectUniqueIds results).length ≠ results.length) :
    updateDailyDetails log today results =
      ⟨log ++ results.map (mkDailyRow today), [], true⟩ := by
  rw [updateDailyDetails, if_neg (by simpa [List.isEmpty_iff] using hne)]
  have hex : ¬ ∃ x ∈ collectUniqueIds results, x ∈ getExistingUniqueIdentifiers log today := by
    rintro ⟨k, hk, hke⟩
    have hmem : k ∈ dupsOf log today results :=
      List.mem_filter.mpr ⟨hk, by simpa using hke⟩
    rw [hd] at hmem
    simp at hmem
  simp [hex, hlen]

lemma dups_eq_nil_of_dupfree (log : List DailyRow) (today : String)
    (results : List ResultsRow) (hne : results ≠ [])
    (h : (updateDailyDetails log today results).duplicateKeys = []) :
    dupsOf log today results = [] := by
  by_contra hd
  rw [updateDailyDetails_reject log today results hne hd] at h
  exact hd h

lemma no_collision_of_dupfree (log : List DailyRow) (today : String)
    (results : List ResultsRow) (hne : results ≠ [])
    (h : (updateDailyDetails log today results).duplicateKeys = []) :
    ∀ k ∈ collectUniqueIds results, k ∉ getExistingUniqueIdentifiers log today := by
  intro k hk hex
  have hd := dups_eq_nil_of_dupfree log today results hne h
  have : k ∈ dupsOf log today results :=
    List.mem_filter.mpr ⟨hk, by simpa using hex⟩
  rw [hd] at this
  simp at this

lemma updateDailyDetails_success (log : List DailyRow) (today : String)
    (results : List ResultsRow) (hne : results ≠ [])
    (hkeys : ∀ r ∈ results, r.uniqueId ≠ "")
    (hnd : (results.map ResultsRow.uniqueId).Nodup)
    (hnocol : ∀ r ∈ results, r.uniqueId ∉ getExistingUniqueIdentifiers log today) :
    updateDailyDetails log today results =
      ⟨log ++ results.map (fun r => { mkDailyRow today r with uniqueId := r.uniqueId }),
       [], false⟩ := by
  have hc := collect_eq_map results hkeys hnd
  have hd : dupsOf log today results = [] := by
    rw [dupsOf, List.filter_eq_nil_iff]
    intro k hk
    obtain ⟨-, r, hr, rfl⟩ := (mem_collectUniqueIds results k).mp hk
    simpa using hnocol r hr
  rw [updateDailyDetails_write log today results hne hd (by rw [hc]; simp)]
  rw [hc, List.zip_map', List.map_map]
  rfl

lemma deriveKey_ne_empty (a b c d : String) : deriveKey a b c d ≠ "" := by
  intro h
  have hl := congrArg String.length h
  simp only [deriveKey, String.length_append,
    show ("|" : String).length = 1 from rfl,
    show ("" : String).length = 0 from rfl] at hl
  omega

lemma processed_key (today : String) (dailyRoutesObj : List DailyRouteRow)
    (rows : List ResultsRow) :
    ∀ r ∈ updateResultsWithDailyRoutes today dailyRoutesObj rows,
      r.uniqueId = deriveKey today r.routeCode r.associateName r.vanId := by
  intro r hr
  rw [updateResultsWithDailyRoutes] at hr
  obtain ⟨raw, hraw, rfl⟩ := List.mem_map.mp hr
  rfl

/-! ### Claim C2 -/

/-- C2: atomicity of the historical append on duplicate detection.  If
at least one candidate identity key is already present among the Daily
Details rows whose date equals the batch date, `updateDailyDetails`
leaves the log unchanged (zero writes), and every colliding key is in
the reported duplicate list, which is non-empty. -/
theorem c2_atomic_reject :
    ∀ (log : List DailyRow) (today : String) (results : List ResultsRow),
    (∃ k ∈ collectUniqueIds results, k ∈ getExistingUniqueIdentifiers log today) →
    (updateDailyDetails log today results).log = log ∧
    (∀ k ∈ collectUniqueIds results, k ∈ getExistingUniqueIdentifiers log today →
      k ∈ (updateDailyDetails log today results).duplicateKeys) ∧
    (updateDailyDetails log today results).duplicateKeys ≠ [] := by
  rintro log today results ⟨k, hk, hke⟩
  have hne : results ≠ [] := by
    rintro rfl
    simp [collectUniqueIds] at hk
  have hd : dupsOf log today results ≠ [] :=
    List.ne_nil_of_mem (List.mem_filter.mpr ⟨hk, by simpa using hke⟩)
  rw [updateDailyDetails_reject log today results hne hd]
  refine ⟨rfl, ?_, hd⟩
  intro k' hk' hke'
  exact List.mem_filter.mpr ⟨hk', by simpa using hke'⟩

/-- C2 witness: the theorem applied at the spec's scenario 4 — a log
row and one candidate row sharing the key
`02/11/2025|CX9|Marquis Thomas|BW2`. -/
theorem c2_atomic_reject_witness :
    (updateDailyDetails
        [⟨"02/11/2025", "CX9", "Marquis Thomas", "", "BW2", fun _ => none,
          "02/11/2025|CX9|Marquis Thomas|BW2"⟩] "02/11/2025"
        [⟨"CX9", "BW2", "Marquis Thomas", "02/11/2025|CX9|Marquis Thomas|BW2"⟩]).log
      = [⟨"02/11/2025", "CX9", "Marquis Thomas", "", "BW2", fun _ => none,
          "02/11/2025|CX9|Marquis Thomas|BW2"⟩] ∧
    (∀ k ∈ collectUniqueIds
        [⟨"CX9", "BW2", "Marquis Thomas", "02/11/2025|CX9|Marquis Thomas|BW2"⟩],
      k ∈ getExistingUniqueIdentifiers
        [⟨"02/11/2025", "CX9", "Marquis Thomas", "", "BW2", fun _ => none,
          "02/11/2025|CX9|Marquis Thomas|BW2"⟩] "02/11/2025" →
      k ∈ (updateDailyDetails
        [⟨"02/11/2025", "CX9", "Marquis Thomas", "", "BW2", fun _ => none,
          "02/11/2025|CX9|Marquis Thomas|BW2"⟩] "02/11/2025"
        [⟨"CX9", "BW2", "Marquis Thomas", "02/11/2025|CX9|Marquis Thomas|BW2"⟩]).duplicateKeys) ∧
    (updateDailyDetails
        [⟨"02/11/2025", "CX9", "Marquis Thomas", "", "BW2", fun _ => none,
          "02/11/2025|CX9|Marquis Thomas|BW2"⟩] "02/11/2025"
        [⟨"CX9", "BW2", "Marquis Thomas", "02/11/2025|CX9|Marquis Thomas|BW2"⟩]).duplicateKeys
      ≠ [] :=
  c2_atomic_reject
    [⟨"02/11/2025", "CX9", "Marquis Thomas", "", "BW2", fun _ => none,
      "02/11/2025|CX9|Marquis Thomas|BW2"⟩] "02/11/2025"
    [⟨"CX9", "BW2", "Marquis Thomas", "02/11/2025|CX9|Marquis Thomas|BW2"⟩]
    (by decide)

/-! ### Claim C1 -/

/-- C1 counterexample: a batch whose single results row has an empty
unique identifier.  The first call appends the row (length 1) with no
key written; the second call with the very same rows finds no duplicate
(`duplicateKeys = []`) and appends again (length 2), so the second call
is not rejected and the log length changes, contradicting the claim as
stated. -/
theorem c1_counterexample :
    (updateDailyDetails [] "02/11/2025" [⟨"CX1", "BW1", "Alice", ""⟩]).log.length = 1 ∧
    (updateDailyDetails
        (updateDailyDetails [] "02/11/2025" [⟨"CX1", "BW1", "Alice", ""⟩]).log
        "02/11/2025" [⟨"CX1", "BW1", "Alice", ""⟩]).duplicateKeys = [] ∧
    (updateDailyDetails
        (updateDailyDetails [] "02/11/2025" [⟨"CX1", "BW1", "Alice", ""⟩]).log
        "02/11/2025" [⟨"CX1", "BW1", "Alice", ""⟩]).log.length = 2 := by
  decide

/-- C1 (amended): if every candidate row carries a non-empty identity
key and the keys are pairwise distinct (so that the first call actually
writes the key column), then after a first call that found no
duplicates, running `updateDailyDetails` again with the same results
rows and date rejects the whole second batch: the log is unchanged and
every candidate key is reported as a duplicate. -/
theorem c1_idempotent_append_amended :
    ∀ (log : List DailyRow) (today : String) (results : List ResultsRow),
    results ≠ [] →
    (∀ r ∈ results, r.uniqueId ≠ "") →
    (results.map ResultsRow.uniqueId).Nodup →
    (updateDailyDetails log today results).duplicateKeys = [] →
    (updateDailyDetails log today results).log.length = log.length + results.length ∧
    updateDailyDetails (updateDailyDetails log today results).log today results =
      ⟨(updateDailyDetails log today results).log,
       results.map ResultsRow.uniqueId, false⟩ := by
  intro log today results hne hkeys hnd hdup
  have hnocol : ∀ r ∈ results, r.uniqueId ∉ getExistingUniqueIdentifiers log today := by
    intro r hr hex
    exact no_collision_of_dupfree log today results hne hdup r.uniqueId
      ((mem_collectUniqueIds results r.uniqueId).mpr ⟨hkeys r hr, r, hr, rfl⟩) hex
  have hfirst := updateDailyDetails_success log today results hne hkeys hnd hnocol
  rw [hfirst]
  constructor
  · simp
  · have hall : ∀ k ∈ collectUniqueIds results,
        k ∈ getExistingUniqueIdentifiers
          (log ++ results.map (fun r => { mkDailyRow today r with uniqueId := r.uniqueId }))
          today := by
      intro k hk
      obtain ⟨-, r, hr, rfl⟩ := (mem_collectUniqueIds results k).mp hk
      exact (mem_getExisting _ _ _).mpr
        ⟨{ mkDailyRow today r with uniqueId := r.uniqueId },
          List.mem_append_right _ (List.mem_map.mpr ⟨r, hr, rfl⟩), rfl, rfl⟩
    have hdups : dupsOf
        (log ++ results.map (fun r => { mkDailyRow today r with uniqueId := r.uniqueId }))
        today results = collectUniqueIds results := by
      rw [dupsOf, List.filter_eq_self]
      intro k hk
      simpa using hall k hk
    have hd2 : dupsOf
        (log ++ results.map (fun r => { mkDailyRow today r with uniqueId := r.uniqueId }))
        today results ≠ [] := by
      rw [hdups, collect_eq_map results hkeys hnd]
      simpa using hne
    rw [updateDailyDetails_reject _ today results hne hd2, hdups,
      collect_eq_map results hkeys hnd]

/-- C1 witness: the amended theorem applied at a one-row batch with a
well-formed key, starting from an empty log. -/
theorem c1_idempotent_append_amended_witness :
    (updateDailyDetails [] "02/11/2025"
        [⟨"CX9", "BW2", "Marquis Thomas", "02/11/2025|CX9|Marquis Thomas|BW2"⟩]).log.length
      = ([] : List DailyRow).length +
        [(⟨"CX9", "BW2", "Marquis Thomas", "02/11/2025|CX9|Marquis Thomas|BW2"⟩ :
          ResultsRow)].length ∧
    updateDailyDetails
        (updateDailyDetails [] "02/11/2025"
          [⟨"CX9", "BW2", "Marquis Thomas", "02/11/2025|CX9|Marquis Thomas|BW2"⟩]).log
        "02/11/2025"
        [⟨"CX9", "BW2", "Marquis Thomas", "02/11/2025|CX9|Marquis Thomas|BW2"⟩] =
      ⟨(updateDailyDetails [] "02/11/2025"
          [⟨"CX9", "BW2", "Marquis Thomas", "02/11/2025|CX9|Marquis Thomas|BW2"⟩]).log,
       [(⟨"CX9", "BW2", "Marquis Thomas", "02/11/2025|CX9|Marquis Thomas|BW2"⟩ :
          ResultsRow)].map ResultsRow.uniqueId, false⟩ :=
  c1_idempotent_append_amended [] "02/11/2025"
    [⟨"CX9", "BW2", "Marquis Thomas", "02/11/2025|CX9|Marquis Thomas|BW2"⟩]
    (by decide) (by decide) (by decide) (by decide)

/-! ### Claim C3 -/

/-- C3: identity-key round-trip.  For every record appended to the
Daily Details log by the append engine run on results rows processed by
`updateResultsWithDailyRoutes` (which writes the associate name and
rebuilds the key), re-deriving the key from the stored fields — date,
route code, associate name, van id joined by single literal pipes —
yields exactly the identity key stored on the record.  The derived keys
are assumed pairwise distinct (route codes are unique per day), so the
key column is actually written. -/
theorem c3_key_roundtrip :
    ∀ (log : List DailyRow) (today : String) (dailyRoutesObj : List DailyRouteRow)
      (rawRows : List ResultsRow),
    updateResultsWithDailyRoutes today dailyRoutesObj rawRows ≠ [] →
    ((updateResultsWithDailyRoutes today dailyRoutesObj rawRows).map
      ResultsRow.uniqueId).Nodup →
    (updateDailyDetails log today
      (updateResultsWithDailyRoutes today dailyRoutesObj rawRows)).duplicateKeys = [] →
    ∃ appended, appended ≠ [] ∧
      (updateDailyDetails log today
        (updateResultsWithDailyRoutes today dailyRoutesObj rawRows)).log = log ++ appended ∧
      ∀ rec ∈ appended,
        deriveKey rec.date rec.routeCode rec.associateName rec.vanId = rec.uniqueId := by
  intro log today drs raw hne hnd hdup
  have hkeys : ∀ r ∈ updateResultsWithDailyRoutes today drs raw, r.uniqueId ≠ "" := by
    intro r hr
    rw [processed_key today drs raw r hr]
    exact deriveKey_ne_empty today r.routeCode r.associateName r.vanId
  have hnocol : ∀ r ∈ updateResultsWithDailyRoutes today drs raw,
      r.uniqueId ∉ getExistingUniqueIdentifiers log today := by
    intro r hr hex
    exact no_collision_of_dupfree log today _ hne hdup r.uniqueId
      ((mem_collectUniqueIds _ r.uniqueId).mpr ⟨hkeys r hr, r, hr, rfl⟩) hex
  have hfirst := updateDailyDetails_success log today _ hne hkeys hnd hnocol
  refine ⟨(updateResultsWithDailyRoutes today drs raw).map
    (fun r => { mkDailyRow today r with uniqueId := r.uniqueId }), ?_, by rw [hfirst], ?_⟩
  · simpa using hne
  · intro rec hrec
    obtain ⟨r, hr, rfl⟩ := List.mem_map.mp hrec
    exact (processed_key today drs raw r hr).symm

/-- C3 witness: the theorem applied at a one-route run starting from an
empty log, with the driver resolved from the daily routes. -/
theorem c3_key_roundtrip_witness :
    ∃ appended, appended ≠ [] ∧
      (updateDailyDetails [] "02/11/2025"
        (updateResultsWithDailyRoutes "02/11/2025" [⟨"CX9", "Marquis Thomas"⟩]
          [⟨"CX9", "BW2", "", ""⟩])).log = [] ++ appended ∧
      ∀ rec ∈ appended,
        deriveKey rec.date rec.routeCode rec.associateName rec.vanId = rec.uniqueId :=
  c3_key_roundtrip [] "02/11/2025" [⟨"CX9", "Marquis Thomas"⟩] [⟨"CX9", "BW2", "", ""⟩]
    (by decide) (by decide) (by decide)

/-! ### Claim C10 -/

/-- C10: when the duplicate check passes but the number of distinct
non-empty candidate keys differs from the number of candidate rows,
`updateDailyDetails` still appends every candidate row's A-E data
columns but skips the identity-key column for the whole batch (only the
mismatch warning fires), so the appended rows carry no identity key and
are invisible to all later duplicate detection (no non-empty key gains
membership in any later existing-key set). -/
theorem c10_missing_key_batch :
    ∀ (log : List DailyRow) (today : String) (results : List ResultsRow),
    results ≠ [] →
    (updateDailyDetails log today results).duplicateKeys = [] →
    (collectUniqueIds results).length ≠ results.length →
    (updateDailyDetails log today results).log = log ++ results.map (mkDailyRow today) ∧
    (updateDailyDetails log today results).mismatchWarning = true ∧
    (∀ rec ∈ (updateDailyDetails log today results).log.drop log.length,
      rec.uniqueId = "") ∧
    ∀ (d k : String), k ≠ "" →
      (k ∈ getExistingUniqueIdentifiers (updateDailyDetails log today results).log d ↔
       k ∈ getExistingUniqueIdentifiers log d) := by
  intro log today results hne hdup hlen
  have hd := dups_eq_nil_of_dupfree log today results hne hdup
  have heq := updateDailyDetails_nokeys log today results hne hd hlen
  rw [heq]
  refine ⟨rfl, rfl, ?_, ?_⟩
  · intro rec hrec
    rw [List.drop_left] at hrec
    obtain ⟨r, hr, rfl⟩ := List.mem_map.mp hrec
    rfl
  · intro d k hk
    rw [mem_getExisting, mem_getExisting]
    constructor
    · rintro ⟨row, hrow, hdate, hu⟩
      rcases List.mem_append.mp hrow with h | h
      · exact ⟨row, h, hdate, hu⟩
      · obtain ⟨r, hr, rfl⟩ := List.mem_map.mp h
        exact absurd hu.symm hk
    · rintro ⟨row, hrow, hdate, hu⟩
      exact ⟨row, List.mem_append_left _ hrow, hdate, hu⟩

/-- C10 witness: the theorem applied at a one-row batch whose row has
an empty unique identifier, starting from an empty log. -/
theorem c10_missing_key_batch_witness :
    (updateDailyDetails [] "02/11/2025" [⟨"CX1", "BW1", "Alice", ""⟩]).log
      = [] ++ [(⟨"CX1", "BW1", "Alice", ""⟩ : ResultsRow)].map (mkDailyRow "02/11/2025") ∧
    (updateDailyDetails [] "02/11/2025" [⟨"CX1", "BW1", "Alice", ""⟩]).mismatchWarning
      = true ∧
    (∀ rec ∈ (updateDailyDetails [] "02/11/2025"
        [⟨"CX1", "BW1", "Alice", ""⟩]).log.drop ([] : List DailyRow).length,
      rec.uniqueId = "") ∧
    ∀ (d k : String), k ≠ "" →
      (k ∈ getExistingUniqueIdentifiers
          (updateDailyDetails [] "02/11/2025" [⟨"CX1", "BW1", "Alice", ""⟩]).log d ↔
       k ∈ getExistingUniqueIdentifiers [] d) :=
  c10_missing_key_batch [] "02/11/2025" [⟨"CX1", "BW1", "Alice", ""⟩]
    (by decide) (by decide) (by decide)

/-! ### Claim C4 -/

lemma allocLoop_nodup :
    ∀ (routes : List Route) (groups : String → List Vehicle)
      (results : List AllocationResult) (assigned : List String)
      (base : List Vehicle),
    (base.map Vehicle.vanId).Nodup →
    (∀ c, groups c <:+ base.filter (fun v => v.vanType == c)) →
    assigned.Nodup →
    (∀ a ∈ assigned, ∀ c, a ∉ (groups c).map Vehicle.vanId) →
    results.map AllocationResult.vanId = assigned →
    (allocLoop routes groups results assigned).assignedVanIds.Nodup ∧
    (allocLoop routes groups results assigned).allocationResults.map AllocationResult.vanId
      = (allocLoop routes groups results assigned).assignedVanIds ∧
    ∃ extra,
      (allocLoop routes groups results assigned).allocationResults = results ++ extra ∧
      (extra.map AllocationResult.routeCode).Sublist (routes.map Route.routeCode) := by
  intro routes
  induction routes with
  | nil =>
    intro groups results assigned base _ _ hnd _ hres
    exact ⟨hnd, hres, [], by simp [allocLoop], by simp⟩
  | cons route rest ih =>
    intro groups results assigned base hbase hg hnd hdisj hres
    rw [allocLoop]
    cases hv : getVanType route.serviceType with
    | none =>
      obtain ⟨h1, h2, extra, he, hs⟩ :=
        ih groups results assigned base hbase hg hnd hdisj hres
      exact ⟨h1, h2, extra, he, by simpa using hs.cons route.routeCode⟩
    | some t =>
      dsimp only
      cases hq : groups t with
      | nil =>
        obtain ⟨h1, h2, extra, he, hs⟩ :=
          ih groups results assigned base hbase hg hnd hdisj hres
        exact ⟨h1, h2, extra, he, by simpa using hs.cons route.routeCode⟩
      | cons v q =>
        -- facts about the popped head vehicle
        have hsubt : List.Sublist (v :: q) (base.filter (fun w => w.vanType == t)) :=
          (hq ▸ hg t).sublist
        have hvfilter : v ∈ base.filter (fun w => w.vanType == t) :=
          hsubt.subset (List.mem_cons_self ..)
        have hvbase : v ∈ base := (List.mem_filter.mp hvfilter).1
        have hvtype : v.vanType = t := by
          simpa using (List.mem_filter.mp hvfilter).2
        have hbucket : ((v :: q).map Vehicle.vanId).Nodup := by
          refine List.Nodup.sublist ((hsubt.map Vehicle.vanId).trans
            ((List.filter_sublist base).map Vehicle.vanId)) hbase
        have hvnotq : v.vanId ∉ q.map Vehicle.vanId :=
          (List.nodup_cons.mp hbucket).1
        have hvnotassigned : v.vanId ∉ assigned := by
          intro hmem
          refine hdisj v.vanId hmem t ?_
          rw [hq, List.map_cons]
          exact List.mem_cons_self ..
        -- invariants for the recursive call
        have hg2 : ∀ c, setGroup groups t q c <:+ base.filter (fun w => w.vanType == c) := by
          intro c
          rw [setGroup]
          by_cases hc : c = t
          · rw [if_pos (by simpa using hc)]
            subst hc
            exact (List.suffix_cons v q).trans (hq ▸ hg c)
          · rw [if_neg (by simpa using hc)]
            exact hg c
        have hnd2 : (assigned ++ [v.vanId]).Nodup := by
          rw [List.nodup_append]
          exact ⟨hnd, List.nodup_singleton _, by
            intro a ha hb
            rw [List.mem_singleton] at hb
            exact hvnotassigned (hb ▸ ha)⟩
        have hdisj2 : ∀ a ∈ assigned ++ [v.vanId], ∀ c,
            a ∉ (setGroup groups t q c).map Vehicle.vanId := by
          intro a ha c hmem
          rw [setGroup] at hmem
          rcases List.mem_append.mp ha with ha | ha
          · by_cases hc : c = t
            · rw [if_pos (by simpa using hc)] at hmem
              refine hdisj a ha t ?_
              rw [hq, List.map_cons]
              exact List.mem_cons_of_mem _ hmem
            · rw [if_neg (by simpa using hc)] at hmem
              exact hdisj a ha c hmem
          · rw [List.mem_singleton] at ha
            subst ha
            by_cases hc : c = t
            · rw [if_pos (by simpa using hc)] at hmem
              exact hvnotq hmem
            · rw [if_neg (by simpa using hc)] at hmem
              obtain ⟨w, hw, hwid⟩ := List.mem_map.mp hmem
              have hwfilter : w ∈ base.filter (fun x => x.vanType == c) :=
                (hg c).sublist.subset hw
              have hwbase : w ∈ base := (List.mem_filter.mp hwfilter).1
              have hwtype : w.vanType = c := by
                simpa using (List.mem_filter.mp hwfilter).2
              have : w = v :=
                List.inj_on_of_nodup_map hbase hwbase hvbase hwid
              exact hc (by rw [← hwtype, this, hvtype])
        have hres2 : (results ++ [mkAllocationResult route v]).map AllocationResult.vanId
            = assigned ++ [v.vanId] := by
          rw [List.map_append, hres]
          rfl
        obtain ⟨h1, h2, extra, he, hs⟩ :=
          ih (setGroup groups t q) (results ++ [mkAllocationResult route v])
            (assigned ++ [v.vanId]) base hbase hg2 hnd2 hdisj2 hres2
        refine ⟨h1, h2, mkAllocationResult route v :: extra, by rw [he]; simp, ?_⟩
        rw [List.map_cons, List.map_cons]
        exact hs.cons₂ _

/-- C4: no double-booking.  For every run of the allocation matcher on
routes with pairwise-distinct route codes and a roster with
pairwise-distinct van ids (the uniqueness invariants of the data model),
the produced allocations contain no van id more than once and no route
code more than once, and the assigned-van-id list has no duplicates. -/
theorem c4_no_double_booking :
    ∀ (routes : List Route) (fleet : List Vehicle),
    (routes.map Route.routeCode).Nodup →
    (fleet.map Vehicle.vanId).Nodup →
    (allocateVehiclesToRoutes routes fleet).assignedVanIds.Nodup ∧
    ((allocateVehiclesToRoutes routes fleet).allocationResults.map
      AllocationResult.vanId).Nodup ∧
    ((allocateVehiclesToRoutes routes fleet).allocationResults.map
      AllocationResult.routeCode).Nodup := by
  intro routes fleet hroutes hfleet
  have hbase : ((operationalFleet fleet).map Vehicle.vanId).Nodup :=
    List.Nodup.sublist ((List.filter_sublist fleet).map Vehicle.vanId) hfleet
  have hg : ∀ c, fleetGroupsOf fleet c <:+
      (operationalFleet fleet).filter (fun v => v.vanType == c) := by
    intro c
    rw [fleetGroupsOf, groupBy_eq_filter, operationalFleet]
  obtain ⟨h1, h2, extra, he, hs⟩ :=
    allocLoop_nodup routes (fleetGroupsOf fleet) [] [] (operationalFleet fleet)
      hbase hg (by simp) (by simp) rfl
  simp only [allocateVehiclesToRoutes]
  refine ⟨h1, ?_, ?_⟩
  · rw [h2]
    exact h1
  · rw [he, List.nil_append]
    exact List.Nodup.sublist hs hroutes

/-- C4 witness: the theorem applied at a two-route, two-vehicle run. -/
theorem c4_no_double_booking_witness :
    (allocateVehiclesToRoutes
      [⟨"CX1", "Standard Parcel - Large Van", "BWAY", "1", "A"⟩,
       ⟨"CX2", "Standard Parcel - Large Van", "BWAY", "2", "B"⟩]
      [⟨"BW1", "Large", "Y"⟩, ⟨"BW2", "Large", "Y"⟩]).assignedVanIds.Nodup ∧
    ((allocateVehiclesToRoutes
      [⟨"CX1", "Standard Parcel - Large Van", "BWAY", "1", "A"⟩,
       ⟨"CX2", "Standard Parcel - Large Van", "BWAY", "2", "B"⟩]
      [⟨"BW1", "Large", "Y"⟩, ⟨"BW2", "Large", "Y"⟩]).allocationResults.map
        AllocationResult.vanId).Nodup ∧
    ((allocateVehiclesToRoutes
      [⟨"CX1", "Standard Parcel - Large Van", "BWAY", "1", "A"⟩,
       ⟨"CX2", "Standard Parcel - Large Van", "BWAY", "2", "B"⟩]
      [⟨"BW1", "Large", "Y"⟩, ⟨"BW2", "Large", "Y"⟩]).allocationResults.map
        AllocationResult.routeCode).Nodup :=
  c4_no_double_booking
    [⟨"CX1", "Standard Parcel - Large Van", "BWAY", "1", "A"⟩,
     ⟨"CX2", "Standard Parcel - Large Van", "BWAY", "2", "B"⟩]
    [⟨"BW1", "Large", "Y"⟩, ⟨"BW2", "Large", "Y"⟩]
    (by decide) (by decide)

/-! ### Claim C6 -/

/-- C6 counterexample: a run with one unmatchable route.  The route is
unmatched (its service type resolves to no category) yet the value
returned by `allocateVehiclesToRoutes` — whose only components are
`allocationResults` and `assignedVanIds` — contains nothing mentioning
the route: there is no unmatched-routes output list anywhere in the
return value, so the unmatched route is not "surfaced in the operation's
returned output lists" as the claim states (it is only logged). -/
theorem c6_counterexample :
    getVanType "Unknown Service" = none ∧
    allocateVehiclesToRoutes [⟨"CX1", "Unknown Service", "BWAY", "1", "A"⟩] []
      = ⟨[], []⟩ := by
  decide

/-- C6 (amended): the matcher never throws on a failed match — a route
with unresolved category or an empty/absent queue is skipped, consuming
no vehicle and leaving the accumulated output untouched — and
operational vehicles left unassigned are surfaced in the list returned
by `extractUnassignedRows`, not raised as an error; but unmatched routes
appear in no returned output list (they are only logged). -/
theorem c6_failure_semantics_amended :
    (∀ (route : Route) (rest : List Route) (groups : String → List Vehicle)
       (results : List AllocationResult) (assigned : List String),
      (getVanType route.serviceType = none →
        allocLoop (route :: rest) groups results assigned
          = allocLoop rest groups results assigned) ∧
      (∀ t, getVanType route.serviceType = some t → groups t = [] →
        allocLoop (route :: rest) groups results assigned
          = allocLoop rest groups results assigned)) ∧
    ∀ (header : List String) (dataRows : List (List String)) (assignedIds : List String),
      jsIndexOf header "Van ID" ≠ -1 →
      jsIndexOf header OPNAL_HEADER ≠ -1 →
      ∃ out, extractUnassignedRows (header :: dataRows) assignedIds = Except.ok out ∧
        ∀ row ∈ dataRows, 15 ≤ row.length →
          jsGetCell row (jsIndexOf header OPNAL_HEADER) = some "Y" →
          (∀ v, jsGetCell row (jsIndexOf header "Van ID") = some v → v ∉ assignedIds) →
          row.take 15 ∈ out := by
  constructor
  · intro route rest groups results assigned
    constructor
    · intro h
      rw [allocLoop, h]
    · intro t ht hq
      rw [allocLoop, ht]
      dsimp only
      rw [hq]
  · intro header dataRows assignedIds h1 h2
    have e1 : (jsIndexOf header "Van ID" == -1) = false := by
      simpa using h1
    have e2 : (jsIndexOf header OPNAL_HEADER == -1) = false := by
      simpa using h2
    refine ⟨header.take 15 ::
      (dataRows.filter (unassignedRowTest assignedIds (jsIndexOf header "Van ID")
        (jsIndexOf header OPNAL_HEADER))).map (fun row => row.take 15), ?_, ?_⟩
    · rw [extractUnassignedRows]
      simp [e1, e2]
    · intro row hrow hlen hop hvan
      have htest : unassignedRowTest assignedIds (jsIndexOf header "Van ID")
          (jsIndexOf header OPNAL_HEADER) row = true := by
        rw [unassignedRowTest]
        have b1 : decide (15 ≤ row.length) = true := decide_eq_true hlen
        have b2 : (jsGetCell row (jsIndexOf header OPNAL_HEADER) == some "Y") = true := by
          rw [hop]
          rfl
        rw [b1, b2]
        cases hv : jsGetCell row (jsIndexOf header "Van ID") with
        | none => rfl
        | some v =>
          have hnotin : v ∉ assignedIds := hvan v hv
          simp [hnotin]
      exact List.mem_cons_of_mem _
        (List.mem_map.mpr ⟨row, List.mem_filter.mpr ⟨hrow, htest⟩, rfl⟩)

/-- C6 witness: the amended theorem's extraction part applied to a
concrete Vehicle Status table with one operational unassigned van. -/
theorem c6_failure_semantics_amended_witness :
    ∃ out, extractUnassignedRows
        (["Van ID", "Type", OPNAL_HEADER, "", "", "", "", "", "", "", "", "", "", "", ""] ::
         [["BW9", "Large", "Y", "", "", "", "", "", "", "", "", "", "", "", ""]]) ["BW1"]
        = Except.ok out ∧
      ∀ row ∈ [["BW9", "Large", "Y", "", "", "", "", "", "", "", "", "", "", "", ""]],
        15 ≤ row.length →
        jsGetCell row (jsIndexOf
          ["Van ID", "Type", OPNAL_HEADER, "", "", "", "", "", "", "", "", "", "", "", ""]
          OPNAL_HEADER) = some "Y" →
        (∀ v, jsGetCell row (jsIndexOf
          ["Van ID", "Type", OPNAL_HEADER, "", "", "", "", "", "", "", "", "", "", "", ""]
          "Van ID") = some v → v ∉ ["BW1"]) →
        row.take 15 ∈ out :=
  (c6_failure_semantics_amended.2
    ["Van ID", "Type", OPNAL_HEADER, "", "", "", "", "", "", "", "", "", "", "", ""]
    [["BW9", "Large", "Y", "", "", "", "", "", "", "", "", "", "", "", ""]] ["BW1"]
    (by decide) (by decide))

/-! ### Claim C9 -/

/-- C9 counterexample: two rows for the date, holding the non-null
numeric values `0` and `30` at the first checkpoint.  The claim's
average over non-null numeric values is `round((0 + 30) / 2) = 15` with
denominator 2, and its `vansWithData` is 2; the code computes average
`30` (denominator 1) and `vansWithData = 1`, because the
`value && !isNaN(value)` test drops the value `0`. -/
theorem c9_counterexample :
    (generateDeliveryPaceSummary
      [⟨"02/11/2025", "R1", "A", "", "V1", fun j => if j = 0 then some 0 else none, ""⟩,
       ⟨"02/11/2025", "R2", "B", "", "V2", fun j => if j = 0 then some 30 else none, ""⟩]
      "02/11/2025").averagePace 0 = 30 ∧
    (generateDeliveryPaceSummary
      [⟨"02/11/2025", "R1", "A", "", "V1", fun j => if j = 0 then some 0 else none, ""⟩,
       ⟨"02/11/2025", "R2", "B", "", "V2", fun j => if j = 0 then some 30 else none, ""⟩]
      "02/11/2025").vansWithData = 1 ∧
    mathRound (0 + 30) 2 = 15 ∧ (30 : Int) ≠ 15 ∧ (1 : Nat) ≠ 2 := by
  decide

lemma summ_total (date : String) :
    ∀ (log : List DailyRow) (acc : SummAcc),
    (log.foldl (summStep date) acc).totalVans
      = acc.totalVans + (log.filter (fun r => r.date == date)).length := by
  intro log
  induction log with
  | nil => intro acc; simp
  | cons row rest ih =>
    intro acc
    rw [List.foldl_cons, ih, List.filter_cons]
    by_cases hd : (row.date == date) = true
    · rw [if_pos hd]
      have : (summStep date acc row).totalVans = acc.totalVans + 1 := by
        simp [summStep, hd]
      rw [this, List.length_cons]
      omega
    · rw [if_neg hd]
      have : (summStep date acc row).totalVans = acc.totalVans := by
        simp [summStep, hd]
      rw [this]

lemma summ_withdata (date : String) :
    ∀ (log : List DailyRow) (acc : SummAcc),
    (log.foldl (summStep date) acc).vansWithData
      = acc.vansWithData + ((log.filter (fun r => r.date == date)).filter
          (fun r => (List.finRange 5).any (fun j => jsTruthyNum (r.pace j)))).length := by
  intro log
  induction log with
  | nil => intro acc; simp
  | cons row rest ih =>
    intro acc
    rw [List.foldl_cons, ih, List.filter_cons]
    by_cases hd : (row.date == date) = true
    · rw [if_pos hd]
      by_cases hD : ((List.finRange 5).any (fun j => jsTruthyNum (row.pace j))) = true
      · have : (summStep date acc row).vansWithData = acc.vansWithData + 1 := by
          simp [summStep, hd, hD]
        rw [this, List.filter_cons, if_pos hD, List.length_cons]
        omega
      · have : (summStep date acc row).vansWithData = acc.vansWithData := by
          simp [summStep, hd, hD]
        rw [this, List.filter_cons, if_neg hD]
    · rw [if_neg hd]
      have : (summStep date acc row).vansWithData = acc.vansWithData := by
        simp [summStep, hd]
      rw [this]

lemma summ_counts (date : String) :
    ∀ (log : List DailyRow) (acc : SummAcc) (j : Fin 5),
    (log.foldl (summStep date) acc).counts j
      = acc.counts j + ((log.filter (fun r => r.date == date)).filter
          (fun r => jsTruthyNum (r.pace j))).length := by
  intro log
  induction log with
  | nil => intro acc j; simp
  | cons row rest ih =>
    intro acc j
    rw [List.foldl_cons, ih, List.filter_cons]
    by_cases hd : (row.date == date) = true
    · rw [if_pos hd]
      by_cases hc : jsTruthyNum (row.pace j) = true
      · have : (summStep date acc row).counts j = acc.counts j + 1 := by
          simp [summStep, hd, hc]
        rw [this, List.filter_cons, if_pos hc, List.length_cons]
        omega
      · have : (summStep date acc row).counts j = acc.counts j := by
          simp [summStep, hd, hc]
        rw [this, List.filter_cons, if_neg hc]
    · rw [if_neg hd]
      have : (summStep date acc row).counts j = acc.counts j := by
        simp [summStep, hd]
      rw [this]

lemma summ_totals (date : String) :
    ∀ (log : List DailyRow) (acc : SummAcc) (j : Fin 5),
    (log.foldl (summStep date) acc).paceTotals j
      = acc.paceTotals j + (((log.filter (fun r => r.date == date)).filter
          (fun r => jsTruthyNum (r.pace j))).map (fun r => (r.pace j).getD 0)).sum := by
  intro log
  induction log with
  | nil => intro acc j; simp
  | cons row rest ih =>
    intro acc j
    rw [List.foldl_cons, ih, List.filter_cons]
    by_cases hd : (row.date == date) = true
    · rw [if_pos hd]
      by_cases hc : jsTruthyNum (row.pace j) = true
      · have : (summStep date acc row).paceTotals j
            = acc.paceTotals j + (row.pace j).getD 0 := by
          simp [summStep, hd, hc]
        rw [this, List.filter_cons, if_pos hc, List.map_cons, List.sum_cons]
        ring
      · have : (summStep date acc row).paceTotals j = acc.paceTotals j := by
          simp [summStep, hd, hc]
        rw [this, List.filter_cons, if_neg hc]
    · rw [if_neg hd]
      have : (summStep date acc row).paceTotals j = acc.paceTotals j := by
        simp [summStep, hd]
      rw [this]

/-- C9 (amended): in `generateDeliveryPaceSummary`, each checkpoint is
averaged (with `Math.round`) only over the records for the date whose
value at that label passes the JS truthy-and-numeric test `value &&
!isNaN(value)` — so a blank cell and a recorded `0` are both excluded
from that checkpoint's numerator and denominator, counted per checkpoint
— `vansWithData` counts the records for the date with at least one
checkpoint passing that test, and `totalVans` counts every record for
the date regardless of data presence. -/
theorem c9_summary_amended :
    ∀ (log : List DailyRow) (date : String),
    (generateDeliveryPaceSummary log date).totalVans
        = (log.filter (fun r => r.date == date)).length ∧
    (generateDeliveryPaceSummary log date).vansWithData
        = ((log.filter (fun r => r.date == date)).filter
            (fun r => (List.finRange 5).any (fun j => jsTruthyNum (r.pace j)))).length ∧
    ∀ j : Fin 5,
      ((log.filter (fun r => r.date == date)).filter
          (fun r => jsTruthyNum (r.pace j)) = [] →
        (generateDeliveryPaceSummary log date).averagePace j = 0) ∧
      ((log.filter (fun r => r.date == date)).filter
          (fun r => jsTruthyNum (r.pace j)) ≠ [] →
        (generateDeliveryPaceSummary log date).averagePace j
          = mathRound
              ((((log.filter (fun r => r.date == date)).filter
                (fun r => jsTruthyNum (r.pace j))).map (fun r => (r.pace j).getD 0)).sum)
              (((log.filter (fun r => r.date == date)).filter
                (fun r => jsTruthyNum (r.pace j))).length)) := by
  intro log date
  simp only [generateDeliveryPaceSummary]
  refine ⟨?_, ?_, ?_⟩
  · rw [summ_total date log]
    simp
  · rw [summ_withdata date log]
    simp
  · intro j
    constructor
    · intro hempty
      rw [summ_counts date log _ j, summ_totals date log _ j, hempty]
      simp
    · intro hne
      rw [summ_counts date log _ j, summ_totals date log _ j]
      have hpos : 0 < ((log.filter (fun r => r.date == date)).filter
          (fun r => jsTruthyNum (r.pace j))).length :=
        List.length_pos.mpr hne
      dsimp only
      rw [Nat.zero_add, zero_add, if_pos hpos]

/-- C9 witness: the amended theorem applied at the spec's example — one
checkpoint with values 10, blank, 20 averages to 15 over a per-slot
count of 2. -/
theorem c9_summary_amended_witness :
    (generateDeliveryPaceSummary paceExampleLog "02/11/2025").totalVans
      = (paceExampleLog.filter (fun r => r.date == "02/11/2025")).length ∧
    (generateDeliveryPaceSummary paceExampleLog "02/11/2025").vansWithData
      = ((paceExampleLog.filter (fun r => r.date == "02/11/2025")).filter
          (fun r => (List.finRange 5).any (fun j => jsTruthyNum (r.pace j)))).length ∧
    ∀ j : Fin 5,
      ((paceExampleLog.filter (fun r => r.date == "02/11/2025")).filter
          (fun r => jsTruthyNum (r.pace j)) = [] →
        (generateDeliveryPaceSummary paceExampleLog "02/11/2025").averagePace j = 0) ∧
      ((paceExampleLog.filter (fun r => r.date == "02/11/2025")).filter
          (fun r => jsTruthyNum (r.pace j)) ≠ [] →
        (generateDeliveryPaceSummary paceExampleLog "02/11/2025").averagePace j
          = mathRound
              ((((paceExampleLog.filter (fun r => r.date == "02/11/2025")).filter
                (fun r => jsTruthyNum (r.pace j))).map (fun r => (r.pace j).getD 0)).sum)
              (((paceExampleLog.filter (fun r => r.date == "02/11/2025")).filter
                (fun r => jsTruthyNum (r.pace j))).length)) :=
  c9_summary_amended paceExampleLog "02/11/2025"

end Fleet

